import Mathlib

/-!
Verification development for the response-validity heuristic engine of the
rnet examples: `examples/scraping_failure_detection.py` (class
`ScrapingFailureDetector`) and `examples/detect_missing_dynamic_content.py`
(class `DynamicContentDetector`).

Strings are modelled as `List Char`.  Python `str.lower` is modelled as the
ASCII lowercase map (all fixed tables and messages in the source are ASCII).
Python `re` calls are modelled by a small backtracking matcher over the exact
pattern shapes used by the source (literals and single-character classes under
`*`, `+`, `{n}` quantifiers, greedy and lazy), with Python's leftmost and
non-overlapping `findall`/`sub`/`search` semantics.  Python `json.loads` is
modelled by an executable recursive-descent JSON parser.  Python float
divisions that are only compared against constant thresholds are modelled by
exact rational comparison via cross-multiplication.
-/

abbrev Chars := List Char

def str (s : String) : Chars := s.data

def lowerChar (c : Char) : Char :=
  if 'A' ≤ c ∧ c ≤ 'Z' then Char.ofNat (c.toNat + 32) else c

def lower (s : Chars) : Chars := s.map lowerChar

/-- Python `\s` and `str.strip` whitespace, restricted to ASCII. -/
def isPySpace (c : Char) : Bool :=
  c == ' ' || c == '\t' || c == '\n' || c == '\r' || c == '\x0b' || c == '\x0c'

/-- Python `str.strip()` (ASCII whitespace model). -/
def pstrip (s : Chars) : Chars :=
  ((s.dropWhile isPySpace).reverse.dropWhile isPySpace).reverse

/-- Index of the first occurrence of `pat` in `hay`, as Python `str.find`
(restricted to a full scan; `none` when absent). -/
def findSub : Chars → Chars → Option Nat
  | [], pat => if pat.isPrefixOf ([] : Chars) then some 0 else none
  | c :: t, pat =>
    if pat.isPrefixOf (c :: t) then some 0 else (findSub t pat).map (· + 1)

/-- Python substring containment (the `in` operator on `str`). -/
def containsSub (hay pat : Chars) : Bool := (findSub hay pat).isSome

/-- Python `str.count`: non-overlapping occurrences, scanning left to right. -/
def countSubF : Nat → Chars → Chars → Nat
  | 0, _, _ => 0
  | fuel + 1, hay, pat =>
    match hay with
    | [] => 0
    | _ :: t =>
      if pat.isPrefixOf hay then 1 + countSubF fuel (hay.drop (max pat.length 1)) pat
      else countSubF fuel t pat

def countSub (hay pat : Chars) : Nat := countSubF (hay.length + 1) hay pat

def natToCharsAux : Nat → Nat → Chars
  | 0, _ => []
  | fuel + 1, n =>
    if n < 10 then [Char.ofNat (48 + n)]
    else natToCharsAux fuel (n / 10) ++ [Char.ofNat (48 + n % 10)]

/-- Decimal rendering of a natural number (Python `str(n)` / f-string). -/
def natToChars (n : Nat) : Chars := natToCharsAux (n + 1) n

/-- An exact nonnegative rational threshold `num / den`, standing in for the
Python float thresholds (`0.05`, `0.15`, ...). -/
structure Threshold where
  num : Nat
  den : Nat
deriving DecidableEq

/-- `a / b < r` decided exactly by cross-multiplication (for `b > 0`);
models the Python float comparison `a / b < r`. -/
def ratioLt (a b : Nat) (r : Threshold) : Bool := decide (a * r.den < r.num * b)

/-! ## A small regex engine

Each Python pattern used by the source is a sequence of case-insensitive
literals and quantified single-character classes.  `matchItemsF` performs
backtracking matching with Python priority (greedy quantifiers prefer longer,
lazy prefer shorter), returning the per-item consumed lengths. -/

inductive CharCls where
  | digit
  | space
  | notQuote
  | notGt
  | eqSpace
  | anyc
deriving DecidableEq

def CharCls.test : CharCls → Char → Bool
  | .digit, c => c.isDigit
  | .space, c => isPySpace c
  | .notQuote, c => c != '"'
  | .notGt, c => c != '>'
  | .eqSpace, c => c == '=' || isPySpace c
  | .anyc, _ => true

inductive Quant where
  | starG
  | starL
  | plusG
  | exactly : Nat → Quant
deriving DecidableEq

inductive PatItem where
  | lit : Chars → PatItem
  | cls : CharCls → Quant → PatItem
deriving DecidableEq

/-- Case-insensitive literal match at the head of `s` (Python `re.IGNORECASE`). -/
def litAt (l s : Chars) : Bool := lower (s.take l.length) == lower l

def bumpHead : List Nat → List Nat
  | [] => []
  | n :: t => (n + 1) :: t

def matchItemsF : Nat → List PatItem → Chars → Option (List Nat)
  | 0, _, _ => none
  | _ + 1, [], _ => some []
  | fuel + 1, PatItem.lit l :: rest, s =>
    if litAt l s then (matchItemsF fuel rest (s.drop l.length)).map (l.length :: ·) else none
  | fuel + 1, PatItem.cls c Quant.starG :: rest, s =>
    (match s with
     | ch :: s2 =>
       if c.test ch then (matchItemsF fuel (PatItem.cls c Quant.starG :: rest) s2).map bumpHead
       else none
     | [] => none) <|>
    (matchItemsF fuel rest s).map (0 :: ·)
  | fuel + 1, PatItem.cls c Quant.starL :: rest, s =>
    ((matchItemsF fuel rest s).map (0 :: ·)) <|>
    (match s with
     | ch :: s2 =>
       if c.test ch then (matchItemsF fuel (PatItem.cls c Quant.starL :: rest) s2).map bumpHead
       else none
     | [] => none)
  | fuel + 1, PatItem.cls c Quant.plusG :: rest, s =>
    match s with
    | ch :: s2 =>
      if c.test ch then (matchItemsF fuel (PatItem.cls c Quant.starG :: rest) s2).map bumpHead
      else none
    | [] => none
  | fuel + 1, PatItem.cls _ (Quant.exactly 0) :: rest, s =>
    (matchItemsF fuel rest s).map (0 :: ·)
  | fuel + 1, PatItem.cls c (Quant.exactly (n + 1)) :: rest, s =>
    match s with
    | ch :: s2 =>
      if c.test ch then (matchItemsF fuel (PatItem.cls c (Quant.exactly n) :: rest) s2).map bumpHead
      else none
    | [] => none

/-- Match a pattern at the start of `s`, returning per-item consumed lengths. -/
def matchItems (items : List PatItem) (s : Chars) : Option (List Nat) :=
  matchItemsF (s.length + items.length + 1) items s

/-- A compiled pattern with its capture-group span `[gs, ge)` over the item
list; a group spanning all items models an ungrouped pattern, for which
`re.findall` returns the whole match. -/
structure PatSeq where
  items : List PatItem
  gs : Nat
  ge : Nat
deriving DecidableEq

def wholePat (items : List PatItem) : PatSeq := ⟨items, 0, items.length⟩

def groupOf (p : PatSeq) (s : Chars) (lens : List Nat) : Chars :=
  (s.drop ((lens.take p.gs).sum)).take (((lens.drop p.gs).take (p.ge - p.gs)).sum)

def findAllF : Nat → PatSeq → Chars → List Chars
  | 0, _, _ => []
  | fuel + 1, p, s =>
    match matchItems p.items s with
    | some lens =>
      groupOf p s lens ::
        (if lens.sum = 0 then
           match s with
           | [] => []
           | _ :: t => findAllF fuel p t
         else findAllF fuel p (s.drop lens.sum))
    | none =>
      match s with
      | [] => []
      | _ :: t => findAllF fuel p t

/-- Python `re.findall`: leftmost non-overlapping matches (group text when the
pattern has a capture group, whole match otherwise). -/
def findAll (p : PatSeq) (s : Chars) : List Chars := findAllF (s.length + 1) p s

/-- Python `re.search` viewed as a Boolean. -/
def searchP (p : PatSeq) (s : Chars) : Bool := !(findAll p s).isEmpty

def reSubF : Nat → PatSeq → Chars → Chars → Chars
  | 0, _, _, _ => []
  | fuel + 1, p, repl, s =>
    match matchItems p.items s with
    | some lens =>
      if lens.sum = 0 then
        repl ++
          (match s with
           | [] => []
           | ch :: t => ch :: reSubF fuel p repl t)
      else repl ++ reSubF fuel p repl (s.drop lens.sum)
    | none =>
      match s with
      | [] => []
      | ch :: t => ch :: reSubF fuel p repl t

/-- Python `re.sub(pattern, repl, s)`. -/
def reSub (p : PatSeq) (repl : Chars) (s : Chars) : Chars :=
  reSubF (s.length + 1) p repl s

/-! ## JSON values and a model of `json.loads` -/

inductive JVal where
  | jnull
  | jbool (b : Bool)
  | jnum (mant : Int) (exp10 : Int)
  | jstr (s : Chars)
  | jarr (xs : List JVal)
  | jobj (fields : List (Chars × JVal))

def lbrace : Char := Char.ofNat 123

def rbrace : Char := Char.ofNat 125

def isJsonWs (c : Char) : Bool := c == ' ' || c == '\t' || c == '\n' || c == '\r'

def skipWs (s : Chars) : Chars := s.dropWhile isJsonWs

def hexVal (c : Char) : Option Nat :=
  if '0' ≤ c ∧ c ≤ '9' then some (c.toNat - 48)
  else if 'a' ≤ c ∧ c ≤ 'f' then some (c.toNat - 87)
  else if 'A' ≤ c ∧ c ≤ 'F' then some (c.toNat - 55)
  else none

/-- JSON string body after the opening quote: content chars, closing quote
consumed.  Python `json.loads` is strict: raw control characters and unknown
escapes are rejected. -/
def parseJStrF : Nat → Chars → Option (Chars × Chars)
  | 0, _ => none
  | fuel + 1, s =>
    match s with
    | [] => none
    | c :: t =>
      if c == '"' then some ([], t)
      else if c == '\\' then
        match t with
        | [] => none
        | e :: t2 =>
          if e == '"' then (parseJStrF fuel t2).map (fun r => ('"' :: r.1, r.2))
          else if e == '\\' then (parseJStrF fuel t2).map (fun r => ('\\' :: r.1, r.2))
          else if e == '/' then (parseJStrF fuel t2).map (fun r => ('/' :: r.1, r.2))
          else if e == 'b' then (parseJStrF fuel t2).map (fun r => ('\x08' :: r.1, r.2))
          else if e == 'f' then (parseJStrF fuel t2).map (fun r => ('\x0c' :: r.1, r.2))
          else if e == 'n' then (parseJStrF fuel t2).map (fun r => ('\n' :: r.1, r.2))
          else if e == 'r' then (parseJStrF fuel t2).map (fun r => ('\r' :: r.1, r.2))
          else if e == 't' then (parseJStrF fuel t2).map (fun r => ('\t' :: r.1, r.2))
          else if e == 'u' then
            match t2 with
            | h1 :: h2 :: h3 :: h4 :: t3 =>
              match hexVal h1, hexVal h2, hexVal h3, hexVal h4 with
              | some a, some b, some c2, some d =>
                (parseJStrF fuel t3).map
                  (fun r => (Char.ofNat (((a * 16 + b) * 16 + c2) * 16 + d) :: r.1, r.2))
              | _, _, _, _ => none
            | _ => none
          else none
      else if c.toNat < 32 then none
      else (parseJStrF fuel t).map (fun r => (c :: r.1, r.2))

def takeDigits (s : Chars) : Chars × Chars := (s.takeWhile Char.isDigit, s.dropWhile Char.isDigit)

def digitsToNat (ds : Chars) : Nat := ds.foldl (fun acc c => acc * 10 + (c.toNat - 48)) 0

/-- JSON number grammar: `-? (0 | [1-9][0-9]*) (. [0-9]+)? ([eE][+-]?[0-9]+)?`,
represented exactly as `mant * 10 ^ exp10`. -/
def parseJNum (s : Chars) : Option (JVal × Chars) :=
  let signed := match s with
    | c :: t => if c == '-' then (true, t) else (false, s)
    | [] => (false, s)
  match takeDigits signed.2 with
  | ([], _) => none
  | (ids, s2) =>
    if ids.headD '0' == '0' ∧ ids.length > 1 then none
    else
      let fracRes : Option (Chars × Chars) :=
        match s2 with
        | d :: t2 =>
          if d == '.' then
            match takeDigits t2 with
            | ([], _) => none
            | (fds, s3) => some (fds, s3)
          else some ([], s2)
        | [] => some ([], s2)
      match fracRes with
      | none => none
      | some (fds, s3) =>
        let expRes : Option (Int × Chars) :=
          match s3 with
          | e :: t3 =>
            if e == 'e' || e == 'E' then
              let esigned := match t3 with
                | c :: t4 => if c == '-' then (true, t4) else if c == '+' then (false, t4) else (false, t3)
                | [] => (false, t3)
              match takeDigits esigned.2 with
              | ([], _) => none
              | (eds, s4) =>
                some ((if esigned.1 then -(digitsToNat eds : Int) else (digitsToNat eds : Int)), s4)
            else some (0, s3)
          | [] => some (0, s3)
        match expRes with
        | none => none
        | some (ex, s4) =>
          let mant : Nat := digitsToNat (ids ++ fds)
          some (JVal.jnum (if signed.1 then -(mant : Int) else (mant : Int)) (ex - (fds.length : Int)), s4)

mutual

def parseJVal : Nat → Chars → Option (JVal × Chars)
  | 0, _ => none
  | fuel + 1, s =>
    match s with
    | [] => none
    | c :: t =>
      if c == '"' then (parseJStrF fuel t).map (fun r => (JVal.jstr r.1, r.2))
      else if c == lbrace then parseObj fuel (skipWs t)
      else if c == '[' then parseArr fuel (skipWs t)
      else if (str "true").isPrefixOf s then some (JVal.jbool true, s.drop 4)
      else if (str "false").isPrefixOf s then some (JVal.jbool false, s.drop 5)
      else if (str "null").isPrefixOf s then some (JVal.jnull, s.drop 4)
      else parseJNum s

def parseObj : Nat → Chars → Option (JVal × Chars)
  | 0, _ => none
  | fuel + 1, s =>
    match s with
    | [] => none
    | c :: t =>
      if c == rbrace then some (JVal.jobj [], t)
      else (parseMembers fuel s).map (fun r => (JVal.jobj r.1, r.2))

def parseMembers : Nat → Chars → Option (List (Chars × JVal) × Chars)
  | 0, _ => none
  | fuel + 1, s =>
    match s with
    | [] => none
    | c :: t =>
      if c == '"' then
        match parseJStrF fuel t with
        | some (key, r1) =>
          match skipWs r1 with
          | c2 :: r2 =>
            if c2 == ':' then
              match parseJVal fuel (skipWs r2) with
              | some (v, r3) =>
                match skipWs r3 with
                | c3 :: r4 =>
                  if c3 == ',' then
                    (parseMembers fuel (skipWs r4)).map (fun r5 => ((key, v) :: r5.1, r5.2))
                  else if c3 == rbrace then some ([(key, v)], r4)
                  else none
                | [] => none
              | none => none
            else none
          | [] => none
        | none => none
      else none

def parseArr : Nat → Chars → Option (JVal × Chars)
  | 0, _ => none
  | fuel + 1, s =>
    match s with
    | [] => none
    | c :: t =>
      if c == ']' then some (JVal.jarr [], t)
      else (parseElems fuel s).map (fun r => (JVal.jarr r.1, r.2))

def parseElems : Nat → Chars → Option (List JVal × Chars)
  | 0, _ => none
  | fuel + 1, s =>
    match parseJVal fuel s with
    | some (v, r1) =>
      match skipWs r1 with
      | c :: r2 =>
        if c == ',' then (parseElems fuel (skipWs r2)).map (fun r3 => (v :: r3.1, r3.2))
        else if c == ']' then some ([v], r2)
        else none
      | [] => none
    | none => none

end

/-- Model of Python `json.loads`: parse one JSON value with no trailing
content. -/
def loads (s : Chars) : Option JVal :=
  match parseJVal (3 * s.length + 16) (skipWs s) with
  | some (v, rest) => if skipWs rest = [] then some v else none
  | none => none

/-- Python `dict.get` on an object built by `json.loads` (later duplicate keys
overwrite earlier ones). -/
def objGet (fields : List (Chars × JVal)) (k : Chars) : Option JVal :=
  (fields.reverse.find? (fun p => p.1 == k)).map (·.2)

/-- Python truthiness of a decoded JSON value. -/
def jTruthy : JVal → Bool
  | .jnull => false
  | .jbool b => b
  | .jnum m _ => m != 0
  | .jstr s => !s.isEmpty
  | .jarr xs => !xs.isEmpty
  | .jobj fs => !fs.isEmpty

/-- Python truthiness of `dict.get`, whose default is `None`. -/
def jTruthyOpt : Option JVal → Bool
  | none => false
  | some v => jTruthy v

mutual

def jvalBeqF : Nat → JVal → JVal → Bool
  | 0, _, _ => false
  | fuel + 1, a, b =>
    match a, b with
    | .jnull, .jnull => true
    | .jbool x, .jbool y => x == y
    | .jnum m e, .jnum m2 e2 => m == m2 && e == e2
    | .jstr s, .jstr t => s == t
    | .jarr xs, .jarr ys => jlistBeqF fuel xs ys
    | .jobj fs, .jobj gs => jfieldsBeqF fuel fs gs
    | _, _ => false

def jlistBeqF : Nat → List JVal → List JVal → Bool
  | 0, _, _ => false
  | fuel + 1, xs, ys =>
    match xs, ys with
    | [], [] => true
    | x :: xt, y :: yt => jvalBeqF fuel x y && jlistBeqF fuel xt yt
    | _, _ => false

def jfieldsBeqF : Nat → List (Chars × JVal) → List (Chars × JVal) → Bool
  | 0, _, _ => false
  | fuel + 1, fs, gs =>
    match fs, gs with
    | [], [] => true
    | f :: ft, g :: gt => f.1 == g.1 && jvalBeqF fuel f.2 g.2 && jfieldsBeqF fuel ft gt
    | _, _ => false

end

/-! ## The response snapshot -/

structure Hop where
  url : Chars
  status : Nat
deriving DecidableEq

structure Snapshot where
  status : Nat
  headers : List (Chars × Chars)
  history : List Hop
  body : Chars
deriving DecidableEq

/-- Case-insensitive header lookup (`response.headers.get(name)`). -/
def hget (headers : List (Chars × Chars)) (name : Chars) : Option Chars :=
  (headers.find? (fun p => lower p.1 == lower name)).map (·.2)

/-- Modelled from the spec: `rnet.Response.status.is_success` is rnet library
code not present under `src/`; the spec describes its success range as 2xx
("any non-2xx status is an immediate content-unrelated failure"). -/
def is_success (status : Nat) : Bool := decide (200 ≤ status ∧ status ≤ 299)

/-! ## `ScrapingFailureDetector` (examples/scraping_failure_detection.py) -/

namespace ScrapingFailureDetector

/-- The `__init__` parameters with their source defaults. -/
structure Config where
  min_content_length : Nat := 500
  max_content_length : Option Nat := none
  expected_content_type : Chars := str "text/html"
  required_markers : List Chars := []
  check_js_rendering : Bool := false
  min_text_ratio : Threshold := ⟨1, 20⟩
deriving DecidableEq

/-- `BOT_INDICATORS`, in declared order. -/
def BOT_INDICATORS : List Chars :=
  [str "captcha",
   str "recaptcha",
   str "hcaptcha",
   str "cloudflare",
   str "cf-browser-verification",
   str "challenge-platform",
   str "access denied",
   str "blocked",
   str "security check",
   str "ray id:",
   str "enable javascript",
   str "datadome",
   str "imperva",
   str "perimeter x",
   str "distil networks",
   str "akamai",
   str "incapsula",
   str "please verify you are human",
   str "are you a robot",
   str "automated access",
   str "unusual traffic",
   str "__cf_chl_jschl_tk__",
   str "cf_clearance",
   str "bot detection"]

/-- A `SUSPICIOUS_HEADERS` table value: a single descriptive string, or a list
of candidate substrings. -/
inductive HeaderInd where
  | single (desc : Chars)
  | multi (pats : List Chars)
deriving DecidableEq

/-- `SUSPICIOUS_HEADERS`, in declared (insertion) order. -/
def SUSPICIOUS_HEADERS : List (Chars × HeaderInd) :=
  [(str "cf-ray", HeaderInd.single (str "Cloudflare protection")),
   (str "cf-mitigated", HeaderInd.single (str "Cloudflare mitigation")),
   (str "x-datadome-cid", HeaderInd.single (str "DataDome protection")),
   (str "x-distil-cs", HeaderInd.single (str "Distil Networks")),
   (str "server", HeaderInd.multi [str "akamai", str "cloudflare", str "imperva"])]

/-- Inner loop of `_check_headers` for a list-valued table entry: first
pattern contained in the lowered header value. -/
def firstContained (pats : List Chars) (value_lower : Chars) : Option Chars :=
  pats.find? (fun p => containsSub value_lower (lower p))

def chGo (headers : List (Chars × Chars)) : List (Chars × HeaderInd) → Option Chars
  | [] => none
  | (header_name, indicator) :: rest =>
    match hget headers header_name with
    | some header_value =>
      if header_value ≠ [] then
        match indicator with
        | HeaderInd.single desc => some (str "Protection detected: " ++ desc)
        | HeaderInd.multi pats =>
          match firstContained pats (lower header_value) with
          | some pattern => some (str "Protection detected via header " ++ header_name ++ str ": " ++ pattern)
          | none => chGo headers rest
      else chGo headers rest
    | none => chGo headers rest

/-- `_check_headers`: walk `SUSPICIOUS_HEADERS` in order.  Note that the
source fails on mere presence (of a truthy value) for single-string entries,
and on a contained substring for list entries. -/
def check_headers (headers : List (Chars × Chars)) : Option Chars :=
  chGo headers SUSPICIOUS_HEADERS

/-- `_check_content_type`. -/
def check_content_type (cfg : Config) (headers : List (Chars × Chars)) : Option Chars :=
  let content_type := (hget headers (str "content-type")).getD []
  if cfg.expected_content_type ≠ [] ∧ ¬ containsSub content_type cfg.expected_content_type then
    some (str "Wrong content-type: expected \x27" ++ cfg.expected_content_type ++
          str "\x27, got \x27" ++ content_type ++ str "\x27")
  else none

def redirect_keywords : List Chars :=
  [str "captcha", str "challenge", str "verify", str "blocked"]

def firstKw (url_lower : Chars) : Option Chars :=
  redirect_keywords.find? (fun p => containsSub url_lower p)

def isBlockingStatus (st : Nat) : Bool := st == 503 || st == 403 || st == 429

/-- The per-hop loop of `_check_redirects`: for each hop in order, first the
URL keyword scan, then the blocking-status test. -/
def redirHopScan : List Hop → Option Chars
  | [] => none
  | h :: rest =>
    if (firstKw (lower h.url)).isSome then some (str "Suspicious redirect: " ++ h.url)
    else if isBlockingStatus h.status then
      some (str "Blocking status in redirect chain: " ++ natToChars h.status)
    else redirHopScan rest

/-- `len(urls) != len(set(urls))`. -/
def hasDup : List Chars → Bool
  | [] => false
  | u :: rest => rest.contains u || hasDup rest

/-- `_check_redirects`. -/
def check_redirects (history : List Hop) : Option Chars :=
  if history.isEmpty then none
  else if hasDup (history.map Hop.url) then some (str "Redirect loop detected")
  else
    match redirHopScan history with
    | some m => some m
    | none =>
      if history.length > 5 then some (str "Too many redirects: " ++ natToChars history.length)
      else none

/-- `_check_content_length`.  The `max_content_length` bound is applied only
when the configured value is truthy (Python `if self.max_content_length and
...`). -/
def check_content_length (cfg : Config) (html : Chars) : Option Chars :=
  let content_length := html.length
  if content_length < cfg.min_content_length then
    some (str "Content too small: " ++ natToChars content_length ++
          str " bytes (min: " ++ natToChars cfg.min_content_length ++ str ")")
  else
    match cfg.max_content_length with
    | some m =>
      if 0 < m ∧ m < content_length then
        some (str "Content too large: " ++ natToChars content_length ++
              str " bytes (max: " ++ natToChars m ++ str ")")
      else if content_length = 0 then some (str "Empty response body")
      else none
    | none =>
      if content_length = 0 then some (str "Empty response body")
      else none

/-- The failure message of `_check_bot_indicators`, with the ±50-character
context window around the first occurrence of the indicator. -/
def botMsg (html ind : Chars) : Chars :=
  let pos := (findSub (lower html) ind).getD 0
  let context_start := pos - 50
  let context_end := min html.length (pos + ind.length + 50)
  let context := (html.drop context_start).take (context_end - context_start)
  str "Bot detection indicator found: \x27" ++ ind ++ str "\x27 (context: ..." ++
    context ++ str "...)"

def botScan (html : Chars) : List Chars → Option Chars
  | [] => none
  | ind :: rest =>
    if containsSub (lower html) ind then some (botMsg html ind) else botScan html rest

/-- `_check_bot_indicators`: lower-case the body, fail on the first indicator
of `BOT_INDICATORS` contained in it. -/
def check_bot_indicators (html : Chars) : Option Chars :=
  botScan html BOT_INDICATORS

/-- Python `repr` of a list of strings, as interpolated by the f-string of
`_check_required_markers` (markers in the source are quote-free ASCII). -/
def pyReprList (xs : List Chars) : Chars :=
  str "[" ++ List.intercalate (str ", ") (xs.map (fun x => str "\x27" ++ x ++ str "\x27")) ++ str "]"

/-- `_check_required_markers`. -/
def check_required_markers (required_markers : List Chars) (html : Chars) : Option Chars :=
  if required_markers.isEmpty then none
  else
    let missing := required_markers.filter (fun m => ¬ containsSub html m)
    if ¬ missing.isEmpty then
      some (str "Missing required content markers: " ++ pyReprList missing)
    else none

/-- The indicator table of `_check_js_placeholders`. -/
def js_placeholder_indicators : List (Chars × Chars) :=
  [(str "data-reactroot", str "React root"),
   (str "id=\x22root\x22", str "React/Vue root element"),
   (str "id=\x22app\x22", str "Vue/SPA app element"),
   (str "data-vue-app", str "Vue app"),
   (str "ng-app", str "Angular app"),
   (str "ng-version", str "Angular framework"),
   (str "<div id=\x22root\x22></div>", str "Empty React root"),
   (str "<div id=\x22app\x22></div>", str "Empty app container"),
   (str "<main></main>", str "Empty main element"),
   (str "skeleton-loader", str "Skeleton loading state"),
   (str "placeholder-glow", str "Placeholder animation"),
   (str "spinner", str "Loading spinner")]

/-- `re.search(r'<body[^>]*>\s*<div[^>]*>\s*</div>\s*<script', html_lower)`. -/
def singleDivPat : PatSeq :=
  wholePat
    [PatItem.lit (str "<body"), PatItem.cls CharCls.notGt Quant.starG, PatItem.lit (str ">"),
     PatItem.cls CharCls.space Quant.starG,
     PatItem.lit (str "<div"), PatItem.cls CharCls.notGt Quant.starG, PatItem.lit (str ">"),
     PatItem.cls CharCls.space Quant.starG,
     PatItem.lit (str "</div>"), PatItem.cls CharCls.space Quant.starG,
     PatItem.lit (str "<script")]

/-- `_check_js_placeholders`. -/
def check_js_placeholders (html : Chars) : Option Chars :=
  let html_lower := lower html
  let detected :=
    (js_placeholder_indicators.filter (fun pd => containsSub html_lower (lower pd.1))).map (·.2)
  let detected2 :=
    if searchP singleDivPat html_lower then
      detected ++ [str "Single empty div with scripts (SPA pattern)"]
    else detected
  if ¬ detected2.isEmpty then
    some (str "JS placeholder detected: " ++ List.intercalate (str ", ") (detected2.take 3))
  else none

/-- `re.sub(r'<script[^>]*>.*?</script>', '', html, flags=DOTALL|IGNORECASE)`. -/
def scriptPat : PatSeq :=
  wholePat
    [PatItem.lit (str "<script"), PatItem.cls CharCls.notGt Quant.starG, PatItem.lit (str ">"),
     PatItem.cls CharCls.anyc Quant.starL, PatItem.lit (str "</script>")]

def stylePat : PatSeq :=
  wholePat
    [PatItem.lit (str "<style"), PatItem.cls CharCls.notGt Quant.starG, PatItem.lit (str ">"),
     PatItem.cls CharCls.anyc Quant.starL, PatItem.lit (str "</style>")]

/-- `re.sub(r'<[^>]+>', '', ...)`. -/
def tagPat : PatSeq :=
  wholePat [PatItem.lit (str "<"), PatItem.cls CharCls.notGt Quant.plusG, PatItem.lit (str ">")]

/-- `re.sub(r'\s+', ' ', ...)`. -/
def wsPat : PatSeq := wholePat [PatItem.cls CharCls.space Quant.plusG]

/-- The `text_only` computation of `_check_content_density`: strip scripts,
styles and tags, normalise whitespace, strip. -/
def text_only (html : Chars) : Chars :=
  pstrip (reSub wsPat (str " ") (reSub tagPat [] (reSub stylePat [] (reSub scriptPat [] html))))

/-- Approximate rendering of the Python `{x:.1%}` float format (truncated to
one decimal rather than round-half-even; no claim depends on these digits). -/
def pctChars (a b : Nat) : Chars :=
  let m := if b = 0 then 0 else a * 1000 / b
  natToChars (m / 10) ++ str "." ++ natToChars (m % 10) ++ str "%"

/-- `_check_content_density`. -/
def check_content_density (cfg : Config) (html : Chars) : Option Chars :=
  let total_size := html.length
  if total_size = 0 then some (str "Empty HTML")
  else
    let text_size := (text_only html).length
    let script_count := countSub (lower html) (str "<script")
    if ratioLt text_size total_size cfg.min_text_ratio ∧ total_size > 1000 then
      some (str "Low content density: " ++ pctChars text_size total_size ++
            str " text, " ++ natToChars script_count ++ str " scripts (likely JS-rendered)")
    else if script_count > 15 ∧ ratioLt text_size total_size ⟨15, 100⟩ then
      some (str "Heavy JS usage: " ++ natToChars script_count ++ str " scripts with " ++
            pctChars text_size total_size ++ str " text content")
    else none

/-- The indicator table of `_check_embedded_data`. -/
def data_embedding_patterns : List (Chars × Chars) :=
  [(str "type=\x22application/json\x22", str "JSON script tag"),
   (str "type=\x22application/ld+json\x22", str "JSON-LD structured data"),
   (str "__initial_state__", str "Initial state data"),
   (str "__preloaded_state__", str "Preloaded state"),
   (str "window.__data__", str "Window data object"),
   (str "id=\x22__next_data__\x22", str "Next.js data"),
   (str "__next_data__", str "Next.js SSR data"),
   (str "window.__initial_data__", str "Initial data")]

/-- `_check_embedded_data` (its own visible-text computation strips scripts
and tags only). -/
def check_embedded_data (html : Chars) : Option Chars :=
  let html_lower := lower html
  let found_patterns :=
    (data_embedding_patterns.filter (fun pd => containsSub html_lower (lower pd.1))).map (·.2)
  if ¬ found_patterns.isEmpty then
    let visible_content := pstrip (reSub tagPat [] (reSub scriptPat [] html))
    if visible_content.length < 500 then
      some (str "Found embedded data requiring JS: " ++
            List.intercalate (str ", ") (found_patterns.take 2))
    else none
  else none

/-- The block of `check_response` guarded by `check_js_rendering`. -/
def jsStage (cfg : Config) (html : Chars) : Option Chars :=
  if cfg.check_js_rendering then
    check_js_placeholders html <|> check_content_density cfg html <|> check_embedded_data html
  else none

/-- `check_response`: the ordered short-circuit pipeline (`<|>` returns the
first failing check's message). -/
def check_response (cfg : Config) (response : Snapshot) : Option Chars :=
  if ¬ is_success response.status then
    some (str "HTTP error: " ++ natToChars response.status)
  else if response.status = 203 ∨ response.status = 204 then
    some (str "Suspicious status code: " ++ natToChars response.status)
  else
    check_headers response.headers <|>
    check_content_type cfg response.headers <|>
    check_redirects response.history <|>
    check_content_length cfg response.body <|>
    check_bot_indicators response.body <|>
    check_required_markers cfg.required_markers response.body <|>
    jsStage cfg response.body

/-- The pipeline with the JS-rendering block removed: what `check_response`
runs when `check_js_rendering` is disabled. -/
def non_js_checks (cfg : Config) (response : Snapshot) : Option Chars :=
  if ¬ is_success response.status then
    some (str "HTTP error: " ++ natToChars response.status)
  else if response.status = 203 ∨ response.status = 204 then
    some (str "Suspicious status code: " ++ natToChars response.status)
  else
    check_headers response.headers <|>
    check_content_type cfg response.headers <|>
    check_redirects response.history <|>
    check_content_length cfg response.body <|>
    check_bot_indicators response.body <|>
    check_required_markers cfg.required_markers response.body

/-- A sequence of independent evaluations against one detector. -/
def runAll (cfg : Config) (rs : List Snapshot) : List (Option Chars) :=
  rs.map (check_response cfg)

end ScrapingFailureDetector

/-! ## `DynamicContentDetector` (examples/detect_missing_dynamic_content.py) -/

namespace DynamicContentDetector

/-- One value of the `expected_patterns` dict: the config dict with keys
`pattern` (optional, check skipped when absent) and `min_count` (default 1). -/
structure PatConfig where
  pattern : Option PatSeq := none
  min_count : Nat := 1
deriving DecidableEq

/-- The `__init__` parameters with their source defaults. -/
structure Config where
  min_item_count : Option Nat := none
  expected_patterns : List (Chars × PatConfig) := []
  check_lazy_loading : Bool := true
  check_pagination : Bool := true
deriving DecidableEq

/-- The indicator table of `_check_lazy_loading`, in declared order. -/
def lazy_indicators : List (Chars × Chars) :=
  [(str "data-src", str "Lazy-load images not loaded"),
   (str "data-lazy", str "Lazy content pending"),
   (str "loading=\x22lazy\x22", str "Native lazy loading"),
   (str "class=\x22lazy", str "Lazy load class"),
   (str "placeholder.", str "Placeholder images"),
   (str "data:image/svg+xml", str "SVG placeholder"),
   (str "blur-up", str "Progressive image placeholder"),
   (str "skeleton", str "Skeleton loading state"),
   (str "$0.00", str "Unloaded price"),
   (str "$-.--", str "Empty price placeholder"),
   (str "N/A", str "Missing data placeholder"),
   (str "TBD", str "To-be-determined placeholder")]

def lazyFound (html_lower : Chars) : List (Chars × Chars) → List Chars
  | [] => []
  | (indicator, description) :: rest =>
    let count := countSub html_lower (lower indicator)
    if count > 3 then
      (description ++ str " (" ++ natToChars count ++ str "x)") :: lazyFound html_lower rest
    else lazyFound html_lower rest

/-- `_check_lazy_loading`: an indicator counts only when it occurs more than
3 times. -/
def check_lazy_loading (html : Chars) : Option Chars :=
  let found := lazyFound (lower html) lazy_indicators
  if ¬ found.isEmpty then
    some (str "Unloaded content: " ++ List.intercalate (str ", ") (found.take 3))
  else none

/-- `load_more_patterns` of `_check_pagination`, compiled. -/
def load_more_patterns : List PatSeq :=
  [wholePat [PatItem.lit (str "class=\x22"), PatItem.cls CharCls.notQuote Quant.starG,
             PatItem.lit (str "load-more"), PatItem.cls CharCls.notQuote Quant.starG,
             PatItem.lit (str "\x22")],
   wholePat [PatItem.lit (str "id=\x22load-more\x22")],
   wholePat [PatItem.lit (str ">load more<")],
   wholePat [PatItem.lit (str ">show more<")],
   wholePat [PatItem.lit (str ">view more<")],
   wholePat [PatItem.lit (str "load additional")],
   wholePat [PatItem.lit (str "see all "), PatItem.cls CharCls.digit Quant.plusG,
             PatItem.lit (str " items")],
   wholePat [PatItem.lit (str "showing "), PatItem.cls CharCls.digit Quant.plusG,
             PatItem.lit (str " of "), PatItem.cls CharCls.digit Quant.plusG]]

def firstLoadMore (html : Chars) : List PatSeq → Option Chars
  | [] => none
  | p :: ps =>
    match findAll p html with
    | m :: _ => some m
    | [] => firstLoadMore html ps

/-- `re.findall(r'page[=\s]+(\d+)', html, re.IGNORECASE)`: the capture group
holds the digits. -/
def pagePat : PatSeq :=
  ⟨[PatItem.lit (str "page"), PatItem.cls CharCls.eqSpace Quant.plusG,
    PatItem.cls CharCls.digit Quant.plusG], 2, 3⟩

def digitsNat (ds : Chars) : Nat := ds.foldl (fun acc c => acc * 10 + (c.toNat - 48)) 0

def maxPage (page_indicators : List Chars) : Nat :=
  (page_indicators.map digitsNat).foldl Nat.max 0

/-- `re.search(r'next page|page 2|→|»', html, re.IGNORECASE)`. -/
def hasNextPageHint (html : Chars) : Bool :=
  containsSub (lower html) (str "next page") || containsSub (lower html) (str "page 2") ||
  containsSub (lower html) (str "→") || containsSub (lower html) (str "»")

def scroll_patterns : List Chars :=
  [str "data-infinite-scroll", str "infinite-scroll-container",
   str "scroll-to-load", str "data-next-page"]

def scrollScan (html_lower : Chars) : List Chars → Option Chars
  | [] => none
  | p :: rest =>
    if containsSub html_lower (lower p) then
      some (str "Infinite scroll not triggered: " ++ p)
    else scrollScan html_lower rest

/-- `_check_pagination`. -/
def check_pagination (html : Chars) : Option Chars :=
  match firstLoadMore html load_more_patterns with
  | some m => some (str "Unpaginated content detected: " ++ m.take 50)
  | none =>
    let page_indicators := findAll pagePat html
    if ¬ page_indicators.isEmpty ∧ maxPage page_indicators = 1 ∧ hasNextPageHint html then
      some (str "Only first page content loaded")
    else scrollScan (lower html) scroll_patterns

/-- `item_patterns` of `_check_item_count`, compiled with their labels. -/
def item_patterns : List (PatSeq × Chars) :=
  [(wholePat [PatItem.lit (str "data-product-id=\x22"), PatItem.cls CharCls.notQuote Quant.starG,
              PatItem.lit (str "\x22")], str "products"),
   (wholePat [PatItem.lit (str "class=\x22"), PatItem.cls CharCls.notQuote Quant.starG,
              PatItem.lit (str "product-card"), PatItem.cls CharCls.notQuote Quant.starG,
              PatItem.lit (str "\x22")], str "product cards"),
   (wholePat [PatItem.lit (str "class=\x22"), PatItem.cls CharCls.notQuote Quant.starG,
              PatItem.lit (str "item"), PatItem.cls CharCls.notQuote Quant.starG,
              PatItem.lit (str "\x22")], str "items"),
   (wholePat [PatItem.lit (str "<article"), PatItem.cls CharCls.notGt Quant.starG,
              PatItem.lit (str ">")], str "articles"),
   (wholePat [PatItem.lit (str "data-item-id=\x22"), PatItem.cls CharCls.notQuote Quant.starG,
              PatItem.lit (str "\x22")], str "items"),
   (wholePat [PatItem.lit (str "class=\x22"), PatItem.cls CharCls.notQuote Quant.starG,
              PatItem.lit (str "post"), PatItem.cls CharCls.notQuote Quant.starG,
              PatItem.lit (str "\x22")], str "posts")]

/-- The max-count fold of `_check_item_count` (strictly greater keeps the
earliest best pattern; `pattern_used` starts as `None`). -/
def bestItemCount (html : Chars) : Nat × Option Chars :=
  item_patterns.foldl
    (fun acc pn =>
      let count := (findAll pn.1 html).length
      if count > acc.1 then (count, some pn.2) else acc)
    (0, none)

/-- `_check_item_count`. -/
def check_item_count (html : Chars) (min_expected : Nat) : Option Chars :=
  let best := bestItemCount html
  if best.1 < min_expected then
    some (str "Only " ++ natToChars best.1 ++ str " " ++ best.2.getD (str "None") ++
          str " found (expected ≥" ++ natToChars min_expected ++ str ")")
  else none

/-- `Counter(matches).most_common(1)[0][1]`: the largest multiplicity. -/
def maxMultiplicity (xs : List Chars) : Nat :=
  (xs.map (fun x => xs.count x)).foldl Nat.max 0

/-- `_validate_patterns`: per named entry, the count bound, then (when at
least 5 matches) the all-identical and more-than-80%-identical placeholder
rules; `most_common/actual > 0.8` is decided exactly as `5*mc > 4*actual`. -/
def validate_patterns (html : Chars) : List (Chars × PatConfig) → Option Chars
  | [] => none
  | (name, config) :: rest =>
    match config.pattern with
    | none => validate_patterns html rest
    | some pattern =>
      let ms := findAll pattern html
      let actual_count := ms.length
      if actual_count < config.min_count then
        some (str "Only " ++ natToChars actual_count ++ str " " ++ name ++
              str " found (expected ≥" ++ natToChars config.min_count ++ str ")")
      else if ¬ ms.isEmpty ∧ 5 ≤ actual_count then
        if ms.dedup.length = 1 then
          some (str "All " ++ name ++ str " have identical value \x27" ++
                (ms.headD []).take 30 ++ str "\x27 (placeholder?)")
        else if 5 * maxMultiplicity ms > 4 * actual_count then
          some (natToChars (maxMultiplicity ms) ++ str "/" ++ natToChars actual_count ++
                str " " ++ name ++ str " have same value (likely placeholder)")
        else validate_patterns html rest
      else validate_patterns html rest

/-- `re.findall(r'<noscript>(.*?)</noscript>', html, DOTALL|IGNORECASE)`. -/
def noscriptPat : PatSeq :=
  ⟨[PatItem.lit (str "<noscript>"), PatItem.cls CharCls.anyc Quant.starL,
    PatItem.lit (str "</noscript>")], 1, 2⟩

def js_required_messages : List Chars :=
  [str "please enable javascript",
   str "requires javascript",
   str "javascript is disabled",
   str "javascript must be enabled",
   str "turn on javascript"]

def msgScan (html_lower noscript_content_lower : Chars) : List Chars → Option Chars
  | [] => none
  | msg :: rest =>
    if containsSub html_lower msg ∧ ¬ containsSub noscript_content_lower msg then
      some (str "JS-required message in main content: \x27" ++ msg ++ str "\x27")
    else msgScan html_lower noscript_content_lower rest

/-- `_check_noscript`: the combined-length bound, then the JS-required-message
scan (a message also occurring inside the joined noscript contents is not
flagged). -/
def check_noscript (html : Chars) : Option Chars :=
  let ms := findAll noscriptPat html
  if ¬ ms.isEmpty ∧ 1000 < (ms.map List.length).sum then
    some (str "Large noscript content (" ++ natToChars ((ms.map List.length).sum) ++
          str " chars) - may be no-JS version")
  else
    msgScan (lower html) (lower (List.intercalate (str " ") ms)) js_required_messages

/-- `re.findall(r'<script\s+type="application/ld\+json"[^>]*>(.*?)</script>',
html, DOTALL|IGNORECASE)`. -/
def ldjsonPat : PatSeq :=
  ⟨[PatItem.lit (str "<script"), PatItem.cls CharCls.space Quant.plusG,
    PatItem.lit (str "type=\x22application/ld+json\x22"),
    PatItem.cls CharCls.notGt Quant.starG, PatItem.lit (str ">"),
    PatItem.cls CharCls.anyc Quant.starL, PatItem.lit (str "</script>")], 5, 6⟩

/-- The loop body of `_check_structured_data` over the extracted payloads
(`i` is the 1-based index used in the messages). -/
def csdGo : List Chars → Nat → Option Chars
  | [], _ => none
  | m :: rest, i =>
    match loads (pstrip m) with
    | none => some (str "Malformed JSON-LD at index " ++ natToChars i)
    | some (JVal.jobj fields) =>
      match objGet fields (str "@type") with
      | some (JVal.jstr schema_type) =>
        if schema_type == str "Product" then
          if ¬ jTruthyOpt (objGet fields (str "name")) then
            some (str "Product schema #" ++ natToChars i ++ str " missing name")
          else
            match (objGet fields (str "offers")).getD (JVal.jobj []) with
            | JVal.jobj offers =>
              if ¬ jTruthyOpt (objGet offers (str "price")) ∧
                 ¬ jTruthyOpt (objGet offers (str "lowPrice")) then
                some (str "Product schema #" ++ natToChars i ++ str " missing price")
              else csdGo rest (i + 1)
            | _ => csdGo rest (i + 1)
        else if schema_type == str "ItemList" then
          if ¬ jTruthy ((objGet fields (str "itemListElement")).getD (JVal.jarr [])) then
            some (str "ItemList schema #" ++ natToChars i ++ str " has no items")
          else csdGo rest (i + 1)
        else csdGo rest (i + 1)
      | _ => csdGo rest (i + 1)
    | some _ => csdGo rest (i + 1)

/-- `_check_structured_data`. -/
def check_structured_data (html : Chars) : Option Chars :=
  csdGo (findAll ldjsonPat html) 1

/-- `check_response`: the ordered short-circuit pipeline of the dynamic
content detector. -/
def check_response (cfg : Config) (response : Snapshot) : Option Chars :=
  let html := response.body
  (if cfg.check_lazy_loading then check_lazy_loading html else none) <|>
  (if cfg.check_pagination then check_pagination html else none) <|>
  (match cfg.min_item_count with
   | some n => if n ≠ 0 then check_item_count html n else none
   | none => none) <|>
  (if ¬ cfg.expected_patterns.isEmpty then validate_patterns html cfg.expected_patterns
   else none) <|>
  check_noscript html <|>
  check_structured_data html

/-- A sequence of independent evaluations against one detector. -/
def runAll (cfg : Config) (rs : List Snapshot) : List (Option Chars) :=
  rs.map (check_response cfg)

end DynamicContentDetector

/-! ## Concrete inputs used by the claim theorems -/

/-- A 1007-character SPA-shell body: 53 script blocks and no visible text. -/
def c5Big : Chars := (List.replicate 53 (str "<script>xx</script>")).flatten

/-- A body in which the JS-required message occurs both in the visible
content (the prefix before the noscript block) and inside the noscript
block. -/
def c6Body : Chars := str "please enable javascript <noscript>please enable javascript</noscript>"

/-- 11 no-script segments whose contents total 1100 characters. -/
def c6Seg : Chars :=
  (List.replicate 11 (str "<noscript>xxxxxxxxxxxxxxxxxxxxxxxxxxxxxxxxxxxxxxxxxxxxxxxxxxxxxxxxxxxxxxxxxxxxxxxxxxxxxxxxxxxxxxxxxxxx</noscript>")).flatten

/-- The spec example pattern `\$\d+\.\d{2}`, compiled. -/
def c4PricePat : PatSeq :=
  wholePat [PatItem.lit (str "$"), PatItem.cls CharCls.digit Quant.plusG,
            PatItem.lit (str "."), PatItem.cls CharCls.digit (Quant.exactly 2)]

/-- `expected_patterns = {prices: {pattern: \$\d+\.\d{2}, min_count: 20}}`. -/
def c4Prices : List (Chars × DynamicContentDetector.PatConfig) :=
  [(str "prices", ⟨some c4PricePat, 20⟩)]

/-- A body containing exactly 20 occurrences of `$0.00`. -/
def c4Body20 : Chars := (List.replicate 20 (str "$0.00 ")).flatten

/-- A body containing 25 distinct varied `$XX.XX` price strings. -/
def c4Body25 : Chars :=
  str "$1.00 $2.15 $3.20 $4.35 $5.40 $6.55 $7.60 $8.75 $9.80 $10.95 $11.05 $12.10 $13.25 $14.30 $15.45 $16.50 $17.65 $18.70 $19.85 $20.90 $21.00 $22.15 $23.20 $24.35 $25.40"

/-- The spec example payload with an empty `offers` object. -/
def c7Offers : Chars :=
  str "<script type=\x22application/ld+json\x22>\x7b\x22@type\x22:\x22Product\x22,\x22name\x22:\x22X\x22,\x22offers\x22:\x7b\x7d\x7d</script>"

/-- The spec example payload with `offers.price = "9.99"`. -/
def c7OffersPrice : Chars :=
  str "<script type=\x22application/ld+json\x22>\x7b\x22@type\x22:\x22Product\x22,\x22name\x22:\x22X\x22,\x22offers\x22:\x7b\x22price\x22:\x229.99\x22\x7d\x7d</script>"

/-- A Product payload whose `offers` is a JSON array (no price anywhere). -/
def c7OffersArr : Chars :=
  str "<script type=\x22application/ld+json\x22>\x7b\x22@type\x22:\x22Product\x22,\x22name\x22:\x22X\x22,\x22offers\x22:[]\x7d</script>"

/-- An ItemList payload with an empty `itemListElement`. -/
def c7ItemList : Chars :=
  str "<script type=\x22application/ld+json\x22>\x7b\x22@type\x22:\x22ItemList\x22,\x22itemListElement\x22:[]\x7d</script>"

/-- A payload of an unrecognized schema type. -/
def c7Unknown : Chars :=
  str "<script type=\x22application/ld+json\x22>\x7b\x22@type\x22:\x22WebPage\x22\x7d</script>"

/-- A payload that is not valid JSON. -/
def c7Malformed : Chars :=
  str "<script type=\x22application/ld+json\x22>not json</script>"

/-! ## Shared helper lemmas -/

theorem orElse_none_eq {α : Type} (o : Option α) : (o <|> none) = o := by
  cases o <;> rfl

theorem none_orElse_eq {α : Type} (o : Option α) : (none <|> o) = o := by
  cases o <;> rfl

theorem isPrefixOf_self_append (b c : Chars) : b.isPrefixOf (b ++ c) = true := by
  rw [List.isPrefixOf_iff_prefix]
  exact List.prefix_append b c

theorem containsSub_pat_nil (hay : Chars) : containsSub hay [] = true := by
  cases hay <;> rfl

theorem findSub_cons (x : Char) (t pat : Chars) :
    findSub (x :: t) pat =
      if pat.isPrefixOf (x :: t) then some 0 else (findSub t pat).map (· + 1) := rfl

theorem containsSub_middle (a b c : Chars) : containsSub (a ++ b ++ c) b = true := by
  induction a with
  | nil =>
    cases b with
    | nil => simpa using containsSub_pat_nil c
    | cons x t =>
      have hp : (x :: t).isPrefixOf (x :: (t ++ c)) = true := by
        have h2 := isPrefixOf_self_append (x :: t) c
        rwa [List.cons_append] at h2
      simp only [List.nil_append, containsSub, List.cons_append, findSub_cons, hp]
      simp
  | cons x a ih =>
    simp only [containsSub, List.cons_append, findSub_cons] at *
    by_cases h : List.isPrefixOf b (x :: (a ++ b ++ c)) = true
    · rw [if_pos h]
      rfl
    · rw [if_neg h]
      simpa [Option.isSome_map] using ih

/-! ## Claim C9 -/

/-- Claim C9: for every snapshot whose status is outside the 2xx success
range, `check_response` returns the transport-failure ("HTTP error") reason
regardless of the body, headers, or redirect history; and every snapshot with
status 203 or 204 returns the suspicious-status reason. -/
theorem c9_theorem (cfg : ScrapingFailureDetector.Config) (r : Snapshot) :
    ((r.status < 200 ∨ 299 < r.status) →
       ScrapingFailureDetector.check_response cfg r =
         some (str "HTTP error: " ++ natToChars r.status))
    ∧ ((r.status = 203 ∨ r.status = 204) →
       ScrapingFailureDetector.check_response cfg r =
         some (str "Suspicious status code: " ++ natToChars r.status)) := by
  constructor
  · intro h
    have hs : is_success r.status = false := by
      simp only [is_success, decide_eq_false_iff_not]
      omega
    simp [ScrapingFailureDetector.check_response, hs]
  · intro h
    have hs : is_success r.status = true := by
      simp only [is_success, decide_eq_true_eq]
      omega
    simp [ScrapingFailureDetector.check_response, hs, h]

/-- Witness for C9 at status 500 (non-2xx) and status 204. -/
theorem c9_witness :
    ScrapingFailureDetector.check_response {} ⟨500, [], [], str "lots of body"⟩ =
      some (str "HTTP error: 500")
    ∧ ScrapingFailureDetector.check_response {} ⟨204, [], [], str "lots of body"⟩ =
      some (str "Suspicious status code: 204") :=
  ⟨(c9_theorem {} ⟨500, [], [], str "lots of body"⟩).1 (by decide),
   (c9_theorem {} ⟨204, [], [], str "lots of body"⟩).2 (by decide)⟩

/-! ## Claim C10 -/

/-- Claim C10: evaluation is deterministic and stateless.  In a sequence of
evaluations against one detector (any evaluations before and after), the
result at a given position is exactly the pure function of that position's
snapshot and the configuration, for both detectors. -/
theorem c10_theorem (cfg1 : ScrapingFailureDetector.Config)
    (cfg2 : DynamicContentDetector.Config) (pre post : List Snapshot) (r : Snapshot) :
    (ScrapingFailureDetector.runAll cfg1 (pre ++ r :: post))[pre.length]? =
      some (ScrapingFailureDetector.check_response cfg1 r)
    ∧ (DynamicContentDetector.runAll cfg2 (pre ++ r :: post))[pre.length]? =
      some (DynamicContentDetector.check_response cfg2 r) := by
  have key : ∀ (f : Snapshot → Option Chars), ((pre ++ r :: post).map f)[pre.length]? = some (f r) := by
    intro f
    rw [List.getElem?_map, List.getElem?_append_right (le_refl pre.length), Nat.sub_self]
    simp
  exact ⟨key _, key _⟩

/-! ## Claim C3 -/

/-- Counterexample to C3: with every option left unspecified (the source
defaults), the content-length check rejects a short body (default
`min_content_length = 500` stays active) and the content-type check rejects a
snapshot without a matching content-type header (default
`expected_content_type = "text/html"` stays active). -/
theorem c3_counterexample :
    ScrapingFailureDetector.check_content_length {} (str "short") ≠ none
    ∧ ScrapingFailureDetector.check_content_type {} [] ≠ none := by
  decide

/-- Claim C3 (amended): absence of `max_content_length`, `required_markers`,
`min_item_count` and `expected_patterns` disables the corresponding check; but
`min_content_length` and `expected_content_type` have active defaults (500 and
"text/html") rather than being disabled when unspecified. -/
theorem c3_theorem (cfg : ScrapingFailureDetector.Config)
    (cfg2 : DynamicContentDetector.Config) (html : Chars) (r : Snapshot) :
    (cfg.required_markers = [] →
       ScrapingFailureDetector.check_required_markers cfg.required_markers html = none)
    ∧ (cfg.max_content_length = none → cfg.min_content_length ≤ html.length → html ≠ [] →
       ScrapingFailureDetector.check_content_length cfg html = none)
    ∧ (cfg2.min_item_count = none → cfg2.expected_patterns = [] →
       DynamicContentDetector.check_response cfg2 r =
         ((if cfg2.check_lazy_loading then DynamicContentDetector.check_lazy_loading r.body
           else none) <|>
          ((if cfg2.check_pagination then DynamicContentDetector.check_pagination r.body
            else none) <|>
           (DynamicContentDetector.check_noscript r.body <|>
            DynamicContentDetector.check_structured_data r.body))))
    ∧ (({} : ScrapingFailureDetector.Config).min_content_length = 500
       ∧ ({} : ScrapingFailureDetector.Config).expected_content_type = str "text/html") := by
  refine ⟨?_, ?_, ?_, by decide⟩
  · intro h
    simp [ScrapingFailureDetector.check_required_markers, h]
  · intro h1 h2 h3
    have hlen : html.length ≠ 0 := by
      simpa using fun h0 => h3 (List.length_eq_zero.mp h0)
    simp only [ScrapingFailureDetector.check_content_length, h1]
    rw [if_neg (by omega)]
    simp [hlen]
  · intro h1 h2
    simp [DynamicContentDetector.check_response, h1, h2, none_orElse_eq]

set_option maxRecDepth 40000 in
/-- Witness for C3: a default-config evaluation with a long enough plain body
passes the four absence-disabled checks. -/
theorem c3_witness :
    ScrapingFailureDetector.check_required_markers
      ({} : ScrapingFailureDetector.Config).required_markers (str "page") = none
    ∧ ScrapingFailureDetector.check_content_length {} (List.replicate 500 'a') = none
    ∧ DynamicContentDetector.check_response {} ⟨200, [], [], str "plain body"⟩ =
        ((if ({} : DynamicContentDetector.Config).check_lazy_loading then
            DynamicContentDetector.check_lazy_loading (str "plain body") else none) <|>
         ((if ({} : DynamicContentDetector.Config).check_pagination then
             DynamicContentDetector.check_pagination (str "plain body") else none) <|>
          (DynamicContentDetector.check_noscript (str "plain body") <|>
           DynamicContentDetector.check_structured_data (str "plain body")))) :=
  ⟨(c3_theorem {} {} (str "page") ⟨200, [], [], str "plain body"⟩).1 rfl,
   (c3_theorem {} {} (List.replicate 500 'a') ⟨200, [], [], str "plain body"⟩).2.1 rfl
     (by simp) (by simp),
   (c3_theorem {} {} (str "page") ⟨200, [], [], str "plain body"⟩).2.2.1 rfl rfl⟩

/-! ## Claim C1 -/

/-- Counterexample to C1: the `cf-ray` header is present with value
`abc123`, which does not contain that entry's table string ("Cloudflare
protection") or any other indicator, yet the header check fails: for
single-string entries the source fails on mere presence of the header. -/
theorem c1_counterexample :
    containsSub (lower (str "abc123")) (lower (str "Cloudflare protection")) = false
    ∧ ScrapingFailureDetector.check_headers [(str "cf-ray", str "abc123")] ≠ none := by
  decide

/-- Claim C1 (amended): for the list-valued `server` entry the check fails
exactly when the header is present and its value contains one of the
candidate substrings case-insensitively (first match determines the
diagnostic); but for single-string entries such as `cf-ray` the check fails
on mere presence of a non-empty header value, with the table string used as
the diagnostic label. -/
theorem c1_theorem (headers : List (Chars × Chars)) (v w : Chars) :
    (hget headers (str "cf-ray") = some v → v ≠ [] →
       ScrapingFailureDetector.check_headers headers =
         some (str "Protection detected: Cloudflare protection"))
    ∧ (hget headers (str "cf-ray") = none → hget headers (str "cf-mitigated") = none →
       hget headers (str "x-datadome-cid") = none → hget headers (str "x-distil-cs") = none →
       hget headers (str "server") = some w → w ≠ [] →
       ScrapingFailureDetector.check_headers headers =
         (ScrapingFailureDetector.firstContained
             [str "akamai", str "cloudflare", str "imperva"] (lower w)).map
           (fun pattern =>
             str "Protection detected via header " ++ str "server" ++ str ": " ++ pattern)) := by
  constructor
  · intro hv1 hv2
    simp only [ScrapingFailureDetector.check_headers, ScrapingFailureDetector.SUSPICIOUS_HEADERS,
      ScrapingFailureDetector.chGo, hv1, hv2]
    rw [if_pos hv2]
    rfl
  · intro hn1 hn2 hn3 hn4 hw hne
    simp only [ScrapingFailureDetector.check_headers, ScrapingFailureDetector.SUSPICIOUS_HEADERS,
      ScrapingFailureDetector.chGo, hn1, hn2, hn3, hn4, hw]
    rw [if_pos hne]
    cases hfc : ScrapingFailureDetector.firstContained
        [str "akamai", str "cloudflare", str "imperva"] (lower w) with
    | none => simp [ScrapingFailureDetector.chGo, hfc]
    | some pattern => simp [hfc]

/-- Witness for C1: presence of `cf-ray` alone fails; a `server` header value
containing `imperva` fails via the first matching candidate substring. -/
theorem c1_witness :
    ScrapingFailureDetector.check_headers [(str "cf-ray", str "abc")] =
      some (str "Protection detected: Cloudflare protection")
    ∧ ScrapingFailureDetector.check_headers [(str "server", str "powered by Imperva edge")] =
      some (str "Protection detected via header server: imperva") := by
  constructor
  · exact (c1_theorem [(str "cf-ray", str "abc")] (str "abc") []).1 (by decide) (by decide)
  · have h := (c1_theorem [(str "server", str "powered by Imperva edge")] []
      (str "powered by Imperva edge")).2 (by decide) (by decide) (by decide) (by decide)
      (by decide) (by decide)
    rw [h]
    decide

/-! ## Claim C2 -/

/-- Counterexample to C2: in a two-hop history whose first hop has status 403
and whose second hop URL contains `captcha`, the returned reason is the
blocking-status reason, not the keyword-redirect reason: conditions (b) and
(c) are evaluated per hop, not over the whole history. -/
theorem c2_counterexample :
    ScrapingFailureDetector.check_redirects
        [⟨str "http://x", 403⟩, ⟨str "http://captcha.example", 200⟩] =
      some (str "Blocking status in redirect chain: 403")
    ∧ ScrapingFailureDetector.check_redirects
        [⟨str "http://x", 403⟩, ⟨str "http://captcha.example", 200⟩] ≠
      some (str "Suspicious redirect: http://captcha.example") := by
  decide

theorem redirHopScan_clean (hs : List Hop)
    (h : ∀ x ∈ hs, ScrapingFailureDetector.firstKw (lower x.url) = none
         ∧ ScrapingFailureDetector.isBlockingStatus x.status = false) :
    ScrapingFailureDetector.redirHopScan hs = none := by
  induction hs with
  | nil => rfl
  | cons x rest ih =>
    have hx := h x (List.mem_cons_self x rest)
    simp [ScrapingFailureDetector.redirHopScan, hx.1, hx.2,
      ih (fun y hy => h y (List.mem_cons_of_mem x hy))]

/-- Claim C2 (amended): the loop check runs first over the whole history and
the hop-count ceiling last, but the keyword and blocking-status conditions
are evaluated per hop in order (keyword before status within each hop); in
particular a first hop with a blocking status wins over a later hop whose URL
contains a challenge keyword. -/
theorem c2_theorem (history : List Hop) (h1 h2 : Hop) (rest : List Hop) :
    (history ≠ [] → ScrapingFailureDetector.hasDup (history.map Hop.url) = true →
       ScrapingFailureDetector.check_redirects history = some (str "Redirect loop detected"))
    ∧ (ScrapingFailureDetector.hasDup ((h1 :: h2 :: rest).map Hop.url) = false →
       ScrapingFailureDetector.firstKw (lower h1.url) = none →
       ScrapingFailureDetector.isBlockingStatus h1.status = true →
       ScrapingFailureDetector.check_redirects (h1 :: h2 :: rest) =
         some (str "Blocking status in redirect chain: " ++ natToChars h1.status))
    ∧ ((ScrapingFailureDetector.firstKw (lower h1.url)).isSome = true →
       ScrapingFailureDetector.hasDup ((h1 :: rest).map Hop.url) = false →
       ScrapingFailureDetector.check_redirects (h1 :: rest) =
         some (str "Suspicious redirect: " ++ h1.url))
    ∧ (ScrapingFailureDetector.hasDup (history.map Hop.url) = false →
       (∀ x ∈ history, ScrapingFailureDetector.firstKw (lower x.url) = none
          ∧ ScrapingFailureDetector.isBlockingStatus x.status = false) →
       ScrapingFailureDetector.check_redirects history =
         (if 5 < history.length then
            some (str "Too many redirects: " ++ natToChars history.length)
          else none)) := by
  refine ⟨?_, ?_, ?_, ?_⟩
  · intro hne hdup
    simp [ScrapingFailureDetector.check_redirects, List.isEmpty_iff, hne, hdup]
  · intro hdup hkw hbs
    simp only [List.map_cons] at hdup
    simp [ScrapingFailureDetector.check_redirects, ScrapingFailureDetector.redirHopScan,
      hdup, hkw, hbs]
  · intro hkw hdup
    simp only [List.map_cons] at hdup
    simp [ScrapingFailureDetector.check_redirects, ScrapingFailureDetector.redirHopScan,
      hdup, hkw]
  · intro hdup hclean
    cases history with
    | nil => simp [ScrapingFailureDetector.check_redirects]
    | cons a as =>
      simp only [List.map_cons] at hdup
      simp [ScrapingFailureDetector.check_redirects, hdup, redirHopScan_clean _ hclean]

/-- Witness for C2 at concrete histories: a repeated URL fails as a loop; the
403-then-captcha history fails with the blocking-status reason; a captcha URL
in the first hop fails as a suspicious redirect; six clean hops fail as too
many redirects. -/
theorem c2_witness :
    ScrapingFailureDetector.check_redirects
        [⟨str "a", 200⟩, ⟨str "b", 301⟩, ⟨str "a", 200⟩] = some (str "Redirect loop detected")
    ∧ ScrapingFailureDetector.check_redirects
        [⟨str "http://x", 403⟩, ⟨str "http://captcha.example", 200⟩] =
      some (str "Blocking status in redirect chain: " ++ natToChars 403)
    ∧ ScrapingFailureDetector.check_redirects [⟨str "http://captcha.example", 200⟩] =
      some (str "Suspicious redirect: " ++ str "http://captcha.example")
    ∧ ScrapingFailureDetector.check_redirects
        [⟨str "u1", 301⟩, ⟨str "u2", 301⟩, ⟨str "u3", 301⟩, ⟨str "u4", 301⟩,
         ⟨str "u5", 301⟩, ⟨str "u6", 301⟩] =
      (if 5 < ([⟨str "u1", 301⟩, ⟨str "u2", 301⟩, ⟨str "u3", 301⟩, ⟨str "u4", 301⟩,
                ⟨str "u5", 301⟩, ⟨str "u6", 301⟩] : List Hop).length then
         some (str "Too many redirects: " ++
           natToChars ([⟨str "u1", 301⟩, ⟨str "u2", 301⟩, ⟨str "u3", 301⟩, ⟨str "u4", 301⟩,
                        ⟨str "u5", 301⟩, ⟨str "u6", 301⟩] : List Hop).length)
       else none) := by
  refine ⟨?_, ?_, ?_, ?_⟩
  · exact (c2_theorem [⟨str "a", 200⟩, ⟨str "b", 301⟩, ⟨str "a", 200⟩]
      ⟨str "a", 200⟩ ⟨str "b", 301⟩ []).1 (by decide) (by decide)
  · exact (c2_theorem [] ⟨str "http://x", 403⟩ ⟨str "http://captcha.example", 200⟩ []).2.1
      (by decide) (by decide) (by decide)
  · exact (c2_theorem [] ⟨str "http://captcha.example", 200⟩ ⟨str "", 0⟩ []).2.2.1
      (by decide) (by decide)
  · exact (c2_theorem [⟨str "u1", 301⟩, ⟨str "u2", 301⟩, ⟨str "u3", 301⟩, ⟨str "u4", 301⟩,
      ⟨str "u5", 301⟩, ⟨str "u6", 301⟩] ⟨str "", 0⟩ ⟨str "", 0⟩ []).2.2.2
      (by decide) (by decide)

/-! ## Claim C8 -/

theorem botScan_none (html : Chars) (inds : List Chars)
    (h : ∀ ind ∈ inds, containsSub (lower html) ind = false) :
    ScrapingFailureDetector.botScan html inds = none := by
  induction inds with
  | nil => rfl
  | cons i rest ih =>
    simp [ScrapingFailureDetector.botScan, h i (List.mem_cons_self i rest),
      ih (fun y hy => h y (List.mem_cons_of_mem i hy))]

/-- Claim C8: the bot keyword scan works on the lower-cased body and fails on
the first indicator in declared order; a body containing "captcha" (any case)
fails with that indicator's diagnostic ("captcha" is first in the list); a
body containing no indicator passes; and the diagnostic of an indicator found
at position `pos` contains the ±50-character context window around it. -/
theorem c8_theorem (html : Chars) :
    (containsSub (lower html) (str "captcha") = true →
       ScrapingFailureDetector.check_bot_indicators html =
         some (ScrapingFailureDetector.botMsg html (str "captcha")))
    ∧ ((∀ ind ∈ ScrapingFailureDetector.BOT_INDICATORS, containsSub (lower html) ind = false) →
       ScrapingFailureDetector.check_bot_indicators html = none)
    ∧ (∀ ind pos, findSub (lower html) ind = some pos →
       containsSub (ScrapingFailureDetector.botMsg html ind)
         ((html.drop (pos - 50)).take
           (min html.length (pos + ind.length + 50) - (pos - 50))) = true) := by
  refine ⟨?_, ?_, ?_⟩
  · intro h
    simp [ScrapingFailureDetector.check_bot_indicators, ScrapingFailureDetector.BOT_INDICATORS,
      ScrapingFailureDetector.botScan, h]
  · intro h
    exact botScan_none html _ h
  · intro ind pos hpos
    have hmsg : ScrapingFailureDetector.botMsg html ind =
        (str "Bot detection indicator found: \x27" ++ ind ++ str "\x27 (context: ...") ++
        ((html.drop (pos - 50)).take
          (min html.length (pos + ind.length + 50) - (pos - 50))) ++
        str "...)" := by
      simp [ScrapingFailureDetector.botMsg, hpos, List.append_assoc]
    rw [hmsg]
    exact containsSub_middle _ _ _

/-- Witness for C8: a body with upper-case CAPTCHA fails with the captcha
diagnostic; an indicator-free body passes; the diagnostic contains the
context window around the occurrence at position 2. -/
theorem c8_witness :
    ScrapingFailureDetector.check_bot_indicators (str "xxCAPTCHAyy") =
      some (ScrapingFailureDetector.botMsg (str "xxCAPTCHAyy") (str "captcha"))
    ∧ ScrapingFailureDetector.check_bot_indicators (str "all good here") = none
    ∧ containsSub (ScrapingFailureDetector.botMsg (str "xxCAPTCHAyy") (str "captcha"))
        (((str "xxCAPTCHAyy").drop (2 - 50)).take
          (min (str "xxCAPTCHAyy").length (2 + (str "captcha").length + 50) - (2 - 50))) = true :=
  ⟨(c8_theorem (str "xxCAPTCHAyy")).1 (by decide),
   (c8_theorem (str "all good here")).2.1 (by decide),
   (c8_theorem (str "xxCAPTCHAyy")).2.2 (str "captcha") 2 (by decide)⟩

/-! ## Claim C5 -/

/-- Counterexample to C5: the empty body fails the content-density check
("Empty HTML") although neither of the claim's two conditions holds there
(total length is not above 1000, and the script count is not above 15). -/
theorem c5_counterexample :
    ScrapingFailureDetector.check_content_density {} [] = some (str "Empty HTML")
    ∧ ¬ (1000 < ([] : Chars).length)
    ∧ ¬ (15 < countSub (lower ([] : Chars)) (str "<script")) := by
  decide

/-- Claim C5 (amended): the content-density check fails exactly when the body
is empty, or the visible-text ratio is below `min_text_ratio` with total
length above 1000, or the script-tag count exceeds 15 with text ratio below
0.15; and when `check_js_rendering` is disabled, `check_response` runs
exactly the pipeline without the JS-rendering block, so no snapshot can fail
with a content-density reason. -/
theorem c5_theorem (cfg : ScrapingFailureDetector.Config) (html : Chars) (r : Snapshot) :
    (ScrapingFailureDetector.check_content_density cfg html ≠ none ↔
      (html = []
       ∨ (ratioLt (ScrapingFailureDetector.text_only html).length html.length
            cfg.min_text_ratio = true
          ∧ 1000 < html.length)
       ∨ (15 < countSub (lower html) (str "<script")
          ∧ ratioLt (ScrapingFailureDetector.text_only html).length html.length
              ⟨15, 100⟩ = true)))
    ∧ (cfg.check_js_rendering = false →
       ScrapingFailureDetector.check_response cfg r =
         ScrapingFailureDetector.non_js_checks cfg r) := by
  constructor
  · by_cases h0 : html.length = 0
    · have he : html = [] := List.length_eq_zero.mp h0
      subst he
      simp [ScrapingFailureDetector.check_content_density]
    · have hne : html ≠ [] := fun he => h0 (by simp [he])
      by_cases h1 : ratioLt (ScrapingFailureDetector.text_only html).length html.length
          cfg.min_text_ratio = true ∧ 1000 < html.length
      · simp [ScrapingFailureDetector.check_content_density, h0, h1]
      · by_cases h2 : 15 < countSub (lower html) (str "<script")
            ∧ ratioLt (ScrapingFailureDetector.text_only html).length html.length
                ⟨15, 100⟩ = true
        · simp [ScrapingFailureDetector.check_content_density, h0, h1, h2]
        · simp [ScrapingFailureDetector.check_content_density, h0, h1, h2, hne]
  · intro hf
    simp [ScrapingFailureDetector.check_response, ScrapingFailureDetector.non_js_checks,
      ScrapingFailureDetector.jsStage, hf, orElse_none_eq]

set_option maxRecDepth 100000 in
/-- Witness for C5: the big script-only body (ratio 0 < 5%, length 1007 >
1000) fails the check under the default configuration, and with the flag
disabled `check_response` equals the JS-free pipeline. -/
theorem c5_witness :
    ScrapingFailureDetector.check_content_density {} c5Big ≠ none
    ∧ ScrapingFailureDetector.check_response {} ⟨200, [], [], str "tiny"⟩ =
      ScrapingFailureDetector.non_js_checks {} ⟨200, [], [], str "tiny"⟩ :=
  ⟨(c5_theorem {} c5Big ⟨200, [], [], str "tiny"⟩).1.mpr
     (Or.inr (Or.inl ⟨by decide, by decide⟩)),
   (c5_theorem {} (str "x") ⟨200, [], [], str "tiny"⟩).2 rfl⟩

/-! ## Claim C6 -/

/-- Counterexample to C6: the message occurs in the visible content outside
the no-script segment (it is the 25-character prefix), yet the check passes,
because the same message also occurs inside a no-script segment and the
source only tests membership in the joined segment text. -/
theorem c6_counterexample :
    DynamicContentDetector.check_noscript c6Body = none
    ∧ containsSub (lower (c6Body.take 25)) (str "please enable javascript") = true
    ∧ containsSub (lower ((findAll DynamicContentDetector.noscriptPat c6Body).flatten))
        (str "please enable javascript") = true := by
  decide

theorem msgScan_some_of_mem (hl nsl : Chars) (msgs : List Chars) (msg : Chars)
    (hmem : msg ∈ msgs) (h1 : containsSub hl msg = true) (h2 : containsSub nsl msg = false) :
    DynamicContentDetector.msgScan hl nsl msgs ≠ none := by
  induction msgs with
  | nil => cases hmem
  | cons m rest ih =>
    by_cases hc : containsSub hl m = true ∧ ¬ containsSub nsl m = true
    · simp [DynamicContentDetector.msgScan, hc]
    · rcases List.mem_cons.mp hmem with he | hr
      · subst he
        exact absurd ⟨h1, by simp [h2]⟩ hc
      · simp only [DynamicContentDetector.msgScan]
        rw [if_neg hc]
        exact ih hr

/-- Claim C6 (amended): the check fails when the combined length of the
extracted no-script segments exceeds 1000; and it fails on a JS-required
message that occurs in the body and occurs in none of the no-script segments
— a message that also occurs inside a no-script segment is not flagged. -/
theorem c6_theorem (html : Chars) :
    (1000 < ((findAll DynamicContentDetector.noscriptPat html).map List.length).sum →
       DynamicContentDetector.check_noscript html ≠ none)
    ∧ (∀ msg ∈ DynamicContentDetector.js_required_messages,
       containsSub (lower html) msg = true →
       containsSub (lower (List.intercalate (str " ")
           (findAll DynamicContentDetector.noscriptPat html))) msg = false →
       DynamicContentDetector.check_noscript html ≠ none) := by
  constructor
  · intro h
    have hne : ¬ (findAll DynamicContentDetector.noscriptPat html).isEmpty = true := by
      intro he
      rw [List.isEmpty_iff] at he
      rw [he] at h
      simp at h
    simp [DynamicContentDetector.check_noscript, hne, h]
  · intro msg hmem h1 h2
    by_cases hb : ¬ (findAll DynamicContentDetector.noscriptPat html).isEmpty = true
        ∧ 1000 < ((findAll DynamicContentDetector.noscriptPat html).map List.length).sum
    · simp [DynamicContentDetector.check_noscript, hb]
    · simp only [DynamicContentDetector.check_noscript]
      rw [if_neg hb]
      exact msgScan_some_of_mem _ _ _ msg hmem h1 h2

set_option maxRecDepth 100000 in
/-- Witness for C6: a visible "requires javascript" message with no no-script
segment fails; 51 segments totalling 1020 characters fail the length bound. -/
theorem c6_witness :
    DynamicContentDetector.check_noscript (str "this page requires javascript to work") ≠ none
    ∧ DynamicContentDetector.check_noscript c6Seg ≠ none :=
  ⟨(c6_theorem (str "this page requires javascript to work")).2
     (str "requires javascript") (by decide) (by decide) (by decide),
   (c6_theorem c6Seg).1 (by decide)⟩

/-! ## Claim C4 -/

theorem vp_cons_none (html : Chars) (name : Chars)
    (pc : DynamicContentDetector.PatConfig)
    (rest : List (Chars × DynamicContentDetector.PatConfig)) :
    DynamicContentDetector.validate_patterns html ((name, pc) :: rest) = none →
    DynamicContentDetector.validate_patterns html rest = none := by
  simp only [DynamicContentDetector.validate_patterns]
  rcases hpat : pc.pattern with _ | pattern
  · exact id
  · dsimp only
    split_ifs <;> intro h <;> first | exact h | simp at h

theorem vp_head_fails (html : Chars) (name : Chars)
    (pc : DynamicContentDetector.PatConfig)
    (rest : List (Chars × DynamicContentDetector.PatConfig)) (pattern : PatSeq)
    (hp : pc.pattern = some pattern)
    (hcond : (findAll pattern html).length < pc.min_count
      ∨ (5 ≤ (findAll pattern html).length ∧
         ((findAll pattern html).dedup.length = 1
          ∨ 5 * DynamicContentDetector.maxMultiplicity (findAll pattern html) >
            4 * (findAll pattern html).length))) :
    DynamicContentDetector.validate_patterns html ((name, pc) :: rest) ≠ none := by
  simp only [DynamicContentDetector.validate_patterns, hp]
  rcases hcond with hlt | ⟨h5, hdm⟩
  · rw [if_pos hlt]
    simp
  · by_cases hlt : (findAll pattern html).length < pc.min_count
    · rw [if_pos hlt]
      simp
    · rw [if_neg hlt]
      have hni : ¬ (findAll pattern html).isEmpty = true := by
        rw [List.isEmpty_iff]
        intro he
        rw [he] at h5
        simp at h5
      rw [if_pos ⟨hni, h5⟩]
      by_cases hd : (findAll pattern html).dedup.length = 1
      · rw [if_pos hd]
        simp
      · rw [if_neg hd]
        rcases hdm with hd1 | hmm2
        · exact absurd hd1 hd
        · rw [if_pos hmm2]
          simp

set_option maxRecDepth 100000 in
/-- Claim C4: the pattern-validation check fails whenever some named
entry's match count is below its configured minimum, or has at least 5
matches that are all identical or more than 80% one value; the spec's
20-identical-prices body fails as a placeholder while 25 distinct prices
pass. -/
theorem c4_theorem (html : Chars)
    (entries : List (Chars × DynamicContentDetector.PatConfig)) :
    ((∃ e ∈ entries, ∃ pattern, e.2.pattern = some pattern ∧
        ((findAll pattern html).length < e.2.min_count
         ∨ (5 ≤ (findAll pattern html).length ∧
            ((findAll pattern html).dedup.length = 1
             ∨ 5 * DynamicContentDetector.maxMultiplicity (findAll pattern html) >
               4 * (findAll pattern html).length)))) →
      DynamicContentDetector.validate_patterns html entries ≠ none)
    ∧ DynamicContentDetector.validate_patterns c4Body20 c4Prices =
        some (str "All prices have identical value \x27$0.00\x27 (placeholder?)")
    ∧ DynamicContentDetector.validate_patterns c4Body25 c4Prices = none := by
  refine ⟨?_, by decide, by decide⟩
  intro ⟨e, hmem, pattern, hp, hcond⟩
  induction entries with
  | nil => cases hmem
  | cons x rest ih =>
    rcases List.mem_cons.mp hmem with he | hr
    · subst he
      exact vp_head_fails html e.1 e.2 rest pattern hp hcond
    · intro hnone
      exact ih hr (vp_cons_none html x.1 x.2 rest hnone)

/-- Witness for C4: a priceless body has 0 matches, below the configured
minimum of 20, so the pattern validation fails. -/
theorem c4_witness :
    DynamicContentDetector.validate_patterns (str "no prices here") c4Prices ≠ none :=
  (c4_theorem (str "no prices here") c4Prices).1
    ⟨(str "prices", ⟨some c4PricePat, 20⟩), by decide, c4PricePat, rfl, Or.inl (by decide)⟩

/-! ## Claim C7 -/

set_option maxRecDepth 100000 in
/-- Counterexample to C7: a Product payload with non-empty name whose
`offers` is a JSON array (so it has no `offers.price` or `offers.lowPrice`)
passes the structured-data check, because the source only applies the price
requirement when `offers` is a dict; the claim says every Product without a
non-empty price fails.  The second conjunct pins down the parsed payload. -/
theorem c7_counterexample :
    DynamicContentDetector.check_structured_data c7OffersArr = none
    ∧ jvalBeqF 100
        ((loads (pstrip ((findAll DynamicContentDetector.ldjsonPat c7OffersArr).headD []))).getD
          JVal.jnull)
        (JVal.jobj [(str "@type", JVal.jstr (str "Product")),
                    (str "name", JVal.jstr (str "X")),
                    (str "offers", JVal.jarr [])]) = true := by
  decide

theorem csd_cons_none (m : Chars) (rest : List Chars) (i : Nat) :
    DynamicContentDetector.csdGo (m :: rest) i = none →
    DynamicContentDetector.csdGo rest (i + 1) = none := by
  simp only [DynamicContentDetector.csdGo]
  generalize loads (pstrip m) = v
  rcases v with _ | v
  · intro h
    simp at h
  · rcases v with _ | b | ⟨mant, e⟩ | sv | xs | fields
    · exact id
    · exact id
    · exact id
    · exact id
    · exact id
    · dsimp only
      generalize objGet fields (str "@type") = t
      rcases t with _ | tv
      · exact id
      · rcases tv with _ | b2 | ⟨m2, e2⟩ | st | xs2 | f2
        · exact id
        · exact id
        · exact id
        · dsimp only
          by_cases hp : (st == str "Product") = true
          · rw [if_pos hp]
            by_cases hn : ¬ jTruthyOpt (objGet fields (str "name")) = true
            · rw [if_pos hn]
              intro h
              simp at h
            · rw [if_neg hn]
              generalize (objGet fields (str "offers")).getD (JVal.jobj []) = ov
              rcases ov with _ | b3 | ⟨m3, e3⟩ | s3 | xs3 | offers
              · exact id
              · exact id
              · exact id
              · exact id
              · exact id
              · dsimp only
                split_ifs <;> first | exact id | (intro h; simp at h)
          · rw [if_neg hp]
            by_cases hil : (st == str "ItemList") = true
            · rw [if_pos hil]
              split_ifs <;> first | exact id | (intro h; simp at h)
            · rw [if_neg hil]
              exact id
        · exact id
        · exact id

set_option maxRecDepth 100000 in
/-- Claim C7 (amended): every extracted JSON-LD payload must parse, a parse
failure failing the whole check; a Product payload (with object-typed or
absent `offers`) fails without a non-empty name and a non-empty price;
ItemList fails when `itemListElement` is empty; unknown types pass; but a
Product whose `offers` is a non-object skips the price requirement.  The
spec's two `offers` examples behave as stated. -/
theorem c7_theorem (html : Chars) :
    ((∃ m ∈ findAll DynamicContentDetector.ldjsonPat html, loads (pstrip m) = none) →
       DynamicContentDetector.check_structured_data html ≠ none)
    ∧ DynamicContentDetector.check_structured_data c7Offers =
        some (str "Product schema #1 missing price")
    ∧ DynamicContentDetector.check_structured_data c7OffersPrice = none
    ∧ DynamicContentDetector.check_structured_data c7ItemList =
        some (str "ItemList schema #1 has no items")
    ∧ DynamicContentDetector.check_structured_data c7Unknown = none := by
  refine ⟨?_, by decide, by decide, by decide, by decide⟩
  intro ⟨m, hmem, hbad⟩
  have hgen : ∀ (ms : List Chars), m ∈ ms → ∀ (i : Nat),
      DynamicContentDetector.csdGo ms i ≠ none := by
    intro ms
    induction ms with
    | nil => intro h; cases h
    | cons x rest ih =>
      intro hmx i hnone
      rcases List.mem_cons.mp hmx with he | hr
      · subst he
        revert hnone
        simp only [DynamicContentDetector.csdGo, hbad]
        simp
      · exact ih hr (i + 1) (csd_cons_none x rest i hnone)
  exact hgen _ hmem 1

set_option maxRecDepth 100000 in
/-- Witness for C7: a payload that is not valid JSON fails the whole
structured-data check. -/
theorem c7_witness :
    DynamicContentDetector.check_structured_data c7Malformed ≠ none :=
  (c7_theorem c7Malformed).1 ⟨str "not json", by decide, by
    have h : (loads (pstrip (str "not json"))).isSome = false := by decide
    exact Option.not_isSome_iff_eq_none.mp (by rw [h]; simp)⟩
